import Mathlib

/-!
Verification of the stream-lifecycle orchestrator of the livesewa5
repository, shallowly embedded in Lean 4.

The embedding covers:
- `services/streaming_service.py` (class `StreamingService`): the process
  supervisor — `start_stream`, `_monitor_stream`, `stop_stream`,
  `get_stream_status`, `get_all_stream_status`;
- `services/youtube_service.py` (class `YouTubeService`): modelled as a
  trace of remote API calls plus an environment giving each call's result;
- `components/streaming_interface.py`: the `start_stream` / `stop_stream`
  orchestration flows;
- `services/database.py`: `save_streaming_session` modelled as the record
  it inserts.

External effects (filesystem, subprocess creation, remote API, wall clock)
are supplied by explicit environment records; each embedded function
returns its result together with the traces of external calls it makes,
so that temporal claims (which remote calls happen, in which order) become
statements about those traces.
-/

/-- Result of `ffprobe` as extracted by `StreamingService.get_video_info`:
duration, width, height, fps, bitrate, codec.  Numeric fields that are
floats in Python are abstracted to `Nat`; none of the claims depend on
their arithmetic. -/
structure VideoInfo where
  duration : Nat
  width : Nat
  height : Nat
  fps : Nat
  bitrate : Nat
  codec : String
deriving DecidableEq, Repr

/-- The per-session record stored in `self.active_streams[session_id]`
by `StreamingService.start_stream`, with the `status`/`end_time` fields
later mutated by `_monitor_stream` and `stop_stream`.  `datetime.now()`
timestamps are abstracted to `Nat` ticks (seconds). -/
structure StreamInfo where
  video_path : String
  stream_url : String
  stream_key : String
  start_time : Nat
  status : String
  video_info : VideoInfo
  rtmp_url : String
  end_time : Option Nat
deriving DecidableEq, Repr

/-- The mutable state of a `StreamingService` instance: the two dicts
`self.active_streams` and `self.stream_processes` (the bookkeeping-only
`stream_threads` / `monitoring_threads` dicts are not needed by any
claim).  Python dicts are modelled as insertion-ordered association
lists; a subprocess handle is its pid (`Nat`). -/
structure ServiceState where
  active_streams : List (String × StreamInfo)
  stream_processes : List (String × Nat)
deriving DecidableEq, Repr

/-- Python dict assignment `d[k] = v`: replace the value if the key is
present, otherwise append the new pair (insertion order). -/
def dictSet {α : Type} (l : List (String × α)) (k : String) (v : α) :
    List (String × α) :=
  if (l.lookup k).isSome then
    l.map (fun p => if p.1 = k then (k, v) else p)
  else l ++ [(k, v)]

/-- Python `del d[k]` on a dict (keys unique): drop the pairs with key
`k`. -/
def dictDel {α : Type} (l : List (String × α)) (k : String) :
    List (String × α) :=
  l.filter (fun p => p.1 != k)

/-- Environment for `StreamingService.start_stream`: results of the
external effects it performs — `os.path.exists`, `get_video_info`
(ffprobe), and `subprocess.Popen` (`none` means `Popen` raised, which the
`except` clause turns into a `False` return). -/
structure Env where
  pathExists : String → Bool
  videoInfo : String → Option VideoInfo
  popen : List String → Option Nat

/-- The fixed FFmpeg command line constructed by
`StreamingService.start_stream`, word for word, with
`rtmp_url = f"{stream_url}/{stream_key}"` as its final argument. -/
def buildCmd (video_path stream_url stream_key : String) : List String :=
  ["ffmpeg",
   "-re",
   "-i", video_path,
   "-c:v", "libx264",
   "-preset", "fast",
   "-maxrate", "3000k",
   "-bufsize", "6000k",
   "-vf", "scale=1920:1080",
   "-g", "60",
   "-c:a", "aac",
   "-b:a", "128k",
   "-ac", "2",
   "-ar", "44100",
   "-f", "flv",
   stream_url ++ "/" ++ stream_key]

/-- Outcome of `StreamingService.start_stream`: the returned `bool`, the
service state after the call, and the list of commands successfully
handed to `subprocess.Popen` during the call (empty on every failure
path, since `Popen` either raises or is never reached). -/
structure StartOutcome where
  ok : Bool
  state : ServiceState
  launched : List (List String)
deriving Repr

/-- Embedding of `StreamingService.start_stream(session_id, video_path, stream_url,
stream_key, callback)`.  Branches in source order: the already-active
guard, the `os.path.exists` check, the `get_video_info` check, then
`Popen`; on success the two dicts gain the session entry and the monitor
thread is spawned (the monitor itself is `monitorRun` below). -/
def StreamingService.start_stream (env : Env) (st : ServiceState)
    (now : Nat) (session_id video_path stream_url stream_key : String) :
    StartOutcome :=
  if (st.active_streams.lookup session_id).isSome then
    ⟨false, st, []⟩
  else if ¬ env.pathExists video_path then
    ⟨false, st, []⟩
  else
    match env.videoInfo video_path with
    | none => ⟨false, st, []⟩
    | some vi =>
      let cmd := buildCmd video_path stream_url stream_key
      match env.popen cmd with
      | none => ⟨false, st, []⟩
      | some pid =>
        ⟨true,
         ⟨dictSet st.active_streams session_id
            ⟨video_path, stream_url, stream_key, now, "starting", vi,
             stream_url ++ "/" ++ stream_key, none⟩,
          dictSet st.stream_processes session_id pid⟩,
         [cmd]⟩

/-- One `(session_id, status, message)` tuple delivered to the
caller-supplied callback by `_monitor_stream`. -/
structure MonEvent where
  session : String
  status : String
  message : String
deriving DecidableEq, Repr

/-- Embedding of `StreamingService._monitor_stream` as the sequence of callback events
it emits.  The loop body, per 5-second iteration `k`: if
`process.poll()` is not `None` (`exited k`) emit the terminal
`"stopped"` event and break; otherwise, if the elapsed seconds exceed 10
while the recorded status is still `"starting"`, flip the status to
`"active"` and emit the `"active"` event; then sleep 5 seconds.  `fuel`
bounds the number of iterations observed.  The function takes no
subprocess output stream at all, because the source loop only ever calls
`process.poll()` — it never reads stdout or stderr. -/
def monitorRun (sid : String) (exited : Nat → Bool) (elapsed : Nat → Nat) :
    Nat → Nat → String → List MonEvent
  | 0, _, _ => []
  | fuel + 1, k, stat =>
    if exited k then
      [⟨sid, "stopped", "Stream process terminated"⟩]
    else if 10 < elapsed k ∧ stat = "starting" then
      ⟨sid, "active", "Stream is now active"⟩ ::
        monitorRun sid exited elapsed fuel (k + 1) "active"
    else
      monitorRun sid exited elapsed fuel (k + 1) stat

/-- The grace period passed to `process.wait(timeout=10)` in
`StreamingService.stop_stream`. -/
def grace_timeout_seconds : Nat := 10

/-- OS-level actions taken on the subprocess by `stop_stream`. -/
inductive ProcAction where
  | terminate (pid : Nat)
  | kill (pid : Nat)
deriving DecidableEq, Repr

/-- Environment for `stop_stream`: whether `process.wait(timeout)`
returns before the timeout for a given pid (false means
`subprocess.TimeoutExpired` is raised and the force-kill path runs). -/
structure StopEnv where
  waitReturnsWithin : Nat → Nat → Bool

/-- Outcome of `StreamingService.stop_stream`: returned `bool`, state
after the call, and the process actions taken. -/
structure StopOutcome where
  ok : Bool
  state : ServiceState
  acts : List ProcAction
deriving Repr

/-- The status/end-time mutation performed on
`self.active_streams[session_id]` by `stop_stream` (and by the monitor on
exit): status becomes `"stopped"`, `end_time` is set to the current
time. -/
def setStopped (l : List (String × StreamInfo)) (k : String) (now : Nat) :
    List (String × StreamInfo) :=
  l.map (fun p =>
    if p.1 = k then
      (p.1, { p.2 with status := "stopped", end_time := some now })
    else p)

/-- Embedding of `StreamingService.stop_stream(session_id)`.  Source order: if the
session is not in `active_streams`, warn and return `False`; else if a
process handle exists, `terminate()` it, `wait(timeout=10)`, force
`kill()` on timeout, and delete the handle (both paths); finally mark the
session `"stopped"` with an `end_time` and return `True`. -/
def StreamingService.stop_stream (env : StopEnv) (st : ServiceState)
    (now : Nat) (session_id : String) : StopOutcome :=
  if (st.active_streams.lookup session_id).isNone then
    ⟨false, st, []⟩
  else
    match st.stream_processes.lookup session_id with
    | none =>
      ⟨true, ⟨setStopped st.active_streams session_id now,
              st.stream_processes⟩, []⟩
    | some pid =>
      let acts :=
        if env.waitReturnsWithin pid grace_timeout_seconds then
          [ProcAction.terminate pid]
        else
          [ProcAction.terminate pid, ProcAction.kill pid]
      ⟨true, ⟨setStopped st.active_streams session_id now,
              dictDel st.stream_processes session_id⟩, acts⟩

/-- Embedding of `StreamingService.get_stream_status(session_id)`: a copy of the
session record plus its computed `duration_seconds`
(`(end_time or now) - start_time`). -/
def StreamingService.get_stream_status (st : ServiceState) (now : Nat)
    (sid : String) : Option (StreamInfo × Nat) :=
  match st.active_streams.lookup sid with
  | none => none
  | some info => some (info, info.end_time.getD now - info.start_time)

/-- Embedding of `StreamingService.get_all_stream_status()`: the status of every
session key currently in `active_streams`. -/
def StreamingService.get_all_stream_status (st : ServiceState)
    (now : Nat) : List (String × Option (StreamInfo × Nat)) :=
  st.active_streams.map
    (fun p => (p.1, StreamingService.get_stream_status st now p.1))

/-- One remote call to the broadcasting API, i.e. one method of
`YouTubeService` that issues a YouTube Data API request.  The
constructors mirror the methods relevant to the streaming flows:
`create_live_stream`, `create_live_broadcast`,
`bind_stream_to_broadcast`, `transition_broadcast`, and
`get_stream_health` (the ingest-status query). -/
inductive YTCall where
  | createLiveStream (title resolution frameRate : String)
  | createLiveBroadcast (title description scheduledStart privacy : String)
  | bindStream (broadcastId streamId : String)
  | transitionBroadcast (broadcastId broadcastStatus : String)
  | getStreamHealth (streamId : String)
deriving DecidableEq, Repr

/-- The `{stream_key, stream_url, stream_id}` dict returned by
`YouTubeService.create_live_stream` on success. -/
structure StreamCoords where
  stream_key : String
  stream_url : String
  stream_id : String
deriving DecidableEq, Repr

/-- Results the remote broadcasting service returns for the handshake
calls made by `components/streaming_interface.start_stream`: `none`
(resp. `false` for bind) means the `YouTubeService` method hit its
`except` clause and returned `None`/`False`. -/
structure YTEnv where
  createLiveStreamResult : Option StreamCoords
  createLiveBroadcastResult : Option String
  bindResult : Bool

/-- The row inserted into `streaming_sessions` by
`database.save_streaming_session` (the columns the function fills). -/
structure SessionRow where
  session_id : String
  video_file : String
  stream_title : String
  stream_description : String
  tags : String
  category : String
  privacy_status : String
  made_for_kids : Bool
  channel_name : String
  stream_key : Option String
deriving DecidableEq, Repr

/-- Stand-in for
`(datetime.now() + timedelta(minutes=1)).isoformat() + "Z"` with time as
`Nat` seconds: the exact textual format is irrelevant to every claim. -/
def scheduledStartString (now : Nat) : String :=
  toString (now + 60) ++ "Z"

/-- Outcome of the `components/streaming_interface.start_stream` flow:
the overall success, the `StreamingService` state after the flow, the
ordered trace of broadcasting-API calls, the rows handed to
`save_streaming_session`, the texts displayed via
`st.info`/`st.success`/`st.error`, and the subprocess commands
launched. -/
structure IfaceResult where
  ok : Bool
  svc : ServiceState
  ytCalls : List YTCall
  saved : List SessionRow
  shown : List String
  launched : List (List String)
deriving Repr

/-- Resolution of the video source at the top of
`streaming_interface.start_stream`: an uploaded file is saved under
`uploads/` and that path is used; otherwise the typed-in path is used
as-is. -/
def resolveVideoPath (video_file : Option String)
    (video_path : String) : String :=
  match video_file with
  | some name => "uploads/" ++ name
  | none => video_path

/-- Embedding of `components/streaming_interface.start_stream(...)`.  Source order:
input validation (a video source and a title are required); resolve the
video path (an uploaded file is written under `uploads/`, otherwise the
given path is used); check the file exists; call
`youtube_service.create_live_stream` (abort on `None`); call
`youtube_service.create_live_broadcast` (abort on `None`); call
`youtube_service.bind_stream_to_broadcast` (abort on `False`); call
`save_streaming_session` with the full `stream_key`; call
`streaming_service.start_stream`; on success display the watch URL and
the stream key truncated to its first 10 characters.  The flow contains
no ingest-status polling and no `transition_broadcast` call. -/
def StreamingInterface.start_stream (yt : YTEnv) (env : Env)
    (svc : ServiceState) (now : Nat) (session_id : String)
    (video_file : Option String) (video_path : String)
    (stream_title stream_description privacy_status category : String)
    (made_for_kids : Bool) (tags resolution framerate channel_name : String) :
    IfaceResult :=
  if video_file.isNone ∧ video_path = "" then
    ⟨false, svc, [], [],
     ["Please provide either a video file or video path"], []⟩
  else if stream_title = "" then
    ⟨false, svc, [], [], ["Please provide a stream title"], []⟩
  else
    let final_video_path := resolveVideoPath video_file video_path
    if ¬ env.pathExists final_video_path then
      ⟨false, svc, [], [],
       ["Video file not found: " ++ final_video_path], []⟩
    else
      let c1 := YTCall.createLiveStream ("Stream Key - " ++ stream_title)
        resolution framerate
      match yt.createLiveStreamResult with
      | none =>
        ⟨false, svc, [c1], [],
         ["Creating YouTube live stream...",
          "Failed to create YouTube live stream"], []⟩
      | some coords =>
        let c2 := YTCall.createLiveBroadcast stream_title
          stream_description (scheduledStartString now) privacy_status
        match yt.createLiveBroadcastResult with
        | none =>
          ⟨false, svc, [c1, c2], [],
           ["Creating YouTube live stream...",
            "Failed to create YouTube live broadcast"], []⟩
        | some broadcast_id =>
          let c3 := YTCall.bindStream broadcast_id coords.stream_id
          if ¬ yt.bindResult then
            ⟨false, svc, [c1, c2, c3], [],
             ["Creating YouTube live stream...",
              "Failed to bind stream to broadcast"], []⟩
          else
            let row : SessionRow :=
              ⟨session_id, final_video_path, stream_title,
               stream_description, tags, category, privacy_status,
               made_for_kids, channel_name, some coords.stream_key⟩
            let r := StreamingService.start_stream env svc now session_id
              final_video_path coords.stream_url coords.stream_key
            if r.ok then
              ⟨true, r.state, [c1, c2, c3], [row],
               ["Creating YouTube live stream...",
                "Starting FFmpeg streaming process...",
                "Stream started successfully! Session ID: " ++ session_id,
                "**YouTube Stream URL:** https://www.youtube.com/watch?v="
                  ++ broadcast_id,
                "**Stream Key:** " ++ coords.stream_key.take 10 ++ "..."],
               r.launched⟩
            else
              ⟨false, r.state, [c1, c2, c3], [row],
               ["Creating YouTube live stream...",
                "Starting FFmpeg streaming process...",
                "Failed to start FFmpeg streaming"],
               r.launched⟩

/-- Outcome of the `components/streaming_interface.stop_stream` flow. -/
structure StopIfaceResult where
  ok : Bool
  state : ServiceState
  ytCalls : List YTCall
  acts : List ProcAction
deriving Repr

/-- Embedding of `components/streaming_interface.stop_stream(session_id)`: it calls
`streaming_service.stop_stream` and logs the outcome.  It performs no
broadcasting-API call of any kind — in particular no
`transition_broadcast` — so the remote-call trace is empty. -/
def StreamingInterface.stop_stream (env : StopEnv) (st : ServiceState)
    (now : Nat) (session_id : String) : StopIfaceResult :=
  let r := StreamingService.stop_stream env st now session_id
  ⟨r.ok, r.state, [], r.acts⟩

/-- Is this call a `transition_broadcast` request (any target status)? -/
def isTransitionCall : YTCall → Bool
  | YTCall.transitionBroadcast _ _ => true
  | _ => false

/-- Is this call the transition-to-live request? -/
def isTransitionLiveCall : YTCall → Bool
  | YTCall.transitionBroadcast _ s => s == "live"
  | _ => false

/-- Is this call the transition-to-complete request? -/
def isTransitionCompleteCall : YTCall → Bool
  | YTCall.transitionBroadcast _ s => s == "complete"
  | _ => false

/-- Is this call an ingest-status (encoder-active) query? -/
def isIngestStatusPoll : YTCall → Bool
  | YTCall.getStreamHealth _ => true
  | _ => false

/- Helper lemmas about the dict model. -/

theorem lookup_dictDel_self {α : Type} (l : List (String × α)) (k : String) :
    (dictDel l k).lookup k = none := by
  rw [List.lookup_eq_none_iff]
  intro p hp
  have hne := (List.mem_filter.mp hp).2
  simp only [bne_iff_ne, ne_eq] at hne ⊢
  exact fun h => hne h.symm

theorem lookup_setStopped_self (l : List (String × StreamInfo))
    (k : String) (now : Nat) (info : StreamInfo)
    (h : l.lookup k = some info) :
    (setStopped l k now).lookup k =
      some { info with status := "stopped", end_time := some now } := by
  induction l with
  | nil => simp at h
  | cons p t ih =>
    obtain ⟨a, v⟩ := p
    by_cases hk : k = a
    · have hb : (k == a) = true := beq_iff_eq.mpr hk
      simp only [List.lookup_cons, hb] at h
      simp only [setStopped, List.map_cons, if_pos hk.symm,
        List.lookup_cons, hb]
      simp at h
      simp [h]
    · have hb : (k == a) = false := by simp [hk]
      simp only [List.lookup_cons, hb] at h
      have hne : ¬ a = k := fun hh => hk hh.symm
      simp only [setStopped, List.map_cons, if_neg hne,
        List.lookup_cons, hb]
      exact ih h

theorem lookup_setStopped_isSome (l : List (String × StreamInfo))
    (k : String) (now : Nat)
    (h : (l.lookup k).isSome) :
    ((setStopped l k now).lookup k).isSome := by
  obtain ⟨info, hinfo⟩ := Option.isSome_iff_exists.mp h
  rw [lookup_setStopped_self l k now info hinfo]
  rfl

theorem lookup_map_keyed {β : Type} (l : List (String × StreamInfo))
    (f : String → β) (k : String)
    (h : (l.lookup k).isSome) :
    (l.map (fun p => (p.1, f p.1))).lookup k = some (f k) := by
  induction l with
  | nil => simp at h
  | cons p t ih =>
    obtain ⟨a, v⟩ := p
    by_cases hk : k = a
    · have hb : (k == a) = true := beq_iff_eq.mpr hk
      simp only [List.map_cons, List.lookup_cons, hb]
      simp [hk]
    · have hb : (k == a) = false := by simp [hk]
      simp only [List.lookup_cons, hb] at h
      simp only [List.map_cons, List.lookup_cons, hb]
      exact ih h

/- Helper lemmas about the monitor loop. -/

theorem monitorRun_terminal_count (sid : String) (exited : Nat → Bool)
    (elapsed : Nat → Nat) (fuel k : Nat) (stat : String)
    (h : ∃ j, j < fuel ∧ exited (k + j) = true) :
    (monitorRun sid exited elapsed fuel k stat).countP
      (fun e => e.status == "stopped") = 1 := by
  induction fuel generalizing k stat with
  | zero => obtain ⟨j, hj, _⟩ := h; omega
  | succ n ih =>
    by_cases hx : exited k = true
    · simp [monitorRun, hx, List.countP_cons]
    · have hnext : ∃ j, j < n ∧ exited (k + 1 + j) = true := by
        obtain ⟨j, hj, hxj⟩ := h
        match j with
        | 0 => exact absurd hxj (by simpa using hx)
        | j' + 1 =>
          exact ⟨j', by omega, by
            have : k + 1 + j' = k + (j' + 1) := by omega
            rw [this]; exact hxj⟩
      by_cases hc : 10 < elapsed k ∧ stat = "starting"
      · simp only [monitorRun, hx, if_false, if_pos hc, Bool.false_eq_true]
        rw [List.countP_cons]
        simp only [show ((⟨sid, "active", "Stream is now active"⟩ :
          MonEvent).status == "stopped") = false from rfl]
        simpa using ih (k + 1) "active" hnext
      · simp only [monitorRun, hx, if_false, if_neg hc, Bool.false_eq_true]
        exact ih (k + 1) stat hnext

theorem monitorRun_events_shape (sid : String) (exited : Nat → Bool)
    (elapsed : Nat → Nat) (fuel k : Nat) (stat : String) (e : MonEvent)
    (he : e ∈ monitorRun sid exited elapsed fuel k stat) :
    e.session = sid ∧
      ((e.status = "active" ∧ e.message = "Stream is now active") ∨
       (e.status = "stopped" ∧
        e.message = "Stream process terminated")) := by
  induction fuel generalizing k stat with
  | zero => simp [monitorRun] at he
  | succ n ih =>
    by_cases hx : exited k = true
    · simp only [monitorRun, hx, if_true, List.mem_singleton] at he
      subst he
      exact ⟨rfl, Or.inr ⟨rfl, rfl⟩⟩
    · by_cases hc : 10 < elapsed k ∧ stat = "starting"
      · simp only [monitorRun, hx, Bool.false_eq_true, if_false,
          if_pos hc, List.mem_cons] at he
        rcases he with he | he
        · subst he; exact ⟨rfl, Or.inl ⟨rfl, rfl⟩⟩
        · exact ih (k + 1) "active" he
      · simp only [monitorRun, hx, Bool.false_eq_true, if_false,
          if_neg hc] at he
        exact ih (k + 1) stat he

/- Helper lemmas about start and stop. -/

theorem start_stream_rejects_active (env : Env) (st : ServiceState)
    (now : Nat) (session_id video_path stream_url stream_key : String)
    (h : (st.active_streams.lookup session_id).isSome = true) :
    StreamingService.start_stream env st now session_id video_path
      stream_url stream_key = ⟨false, st, []⟩ := by
  simp [StreamingService.start_stream, h]

theorem stop_stream_with_proc (env : StopEnv) (st : ServiceState)
    (now : Nat) (sid : String) (info : StreamInfo) (pid : Nat)
    (hA : st.active_streams.lookup sid = some info)
    (hP : st.stream_processes.lookup sid = some pid) :
    StreamingService.stop_stream env st now sid =
      ⟨true,
       ⟨setStopped st.active_streams sid now, dictDel st.stream_processes sid⟩,
       if env.waitReturnsWithin pid grace_timeout_seconds then
         [ProcAction.terminate pid]
       else [ProcAction.terminate pid, ProcAction.kill pid]⟩ := by
  simp [StreamingService.stop_stream, hA, hP]

theorem stop_stream_without_proc (env : StopEnv) (st : ServiceState)
    (now : Nat) (sid : String) (info : StreamInfo)
    (hA : st.active_streams.lookup sid = some info)
    (hP : st.stream_processes.lookup sid = none) :
    StreamingService.stop_stream env st now sid =
      ⟨true, ⟨setStopped st.active_streams sid now, st.stream_processes⟩,
       []⟩ := by
  simp [StreamingService.stop_stream, hA, hP]

/-- C5: for every session_id that already has an active stream, a second
start for the same session_id is rejected (failure result) and does not
launch a second subprocess: the call returns `False` and leaves both the
session map and the process map exactly as they were, so at most one
ProcessHandle exists per session_id. -/
theorem C5_second_start_rejected (env : Env) (st : ServiceState)
    (now : Nat) (session_id video_path stream_url stream_key : String)
    (h : (st.active_streams.lookup session_id).isSome = true) :
    StreamingService.start_stream env st now session_id video_path
      stream_url stream_key = ⟨false, st, []⟩ :=
  start_stream_rejects_active env st now session_id video_path stream_url
    stream_key h

/-- Concrete video info, session entry and service state used by the
witnesses below: session "s1" is active with pid 42. -/
def wVideoInfo : VideoInfo := ⟨10, 1920, 1080, 30, 4000, "h264"⟩

def wEntry : StreamInfo :=
  ⟨"v.mp4", "rtmp://a", "key0", 5, "starting", wVideoInfo,
   "rtmp://a/key0", none⟩

def wState : ServiceState := ⟨[("s1", wEntry)], [("s1", 42)]⟩

def wEnv : Env := ⟨fun _ => true, fun _ => some wVideoInfo, fun _ => some 7⟩

theorem C5_second_start_rejected_witness :
    (wState.active_streams.lookup "s1").isSome = true ∧
    StreamingService.start_stream wEnv wState 9 "s1" "v.mp4" "rtmp://a"
      "key0" = ⟨false, wState, []⟩ :=
  ⟨by decide,
   C5_second_start_rejected wEnv wState 9 "s1" "v.mp4" "rtmp://a" "key0"
     (by decide)⟩

/-- C6: if launching the transcoder subprocess fails (`subprocess.Popen`
raises: executable missing, file not found, invalid arguments), the start
returns a failure and no ProcessHandle is created — the service's session
and process maps are exactly what they were before the failed start. -/
theorem C6_launch_failure_changes_nothing (env : Env) (st : ServiceState)
    (now : Nat) (session_id video_path stream_url stream_key : String)
    (h : env.popen (buildCmd video_path stream_url stream_key) = none) :
    StreamingService.start_stream env st now session_id video_path
      stream_url stream_key = ⟨false, st, []⟩ := by
  unfold StreamingService.start_stream
  split
  · rfl
  · split
    · rfl
    · split
      · rfl
      · simp [h]

/-- Environment in which `Popen` always raises (e.g. ffmpeg missing). -/
def wEnvNoLaunch : Env :=
  ⟨fun _ => true, fun _ => some wVideoInfo, fun _ => none⟩

theorem C6_launch_failure_changes_nothing_witness :
    wEnvNoLaunch.popen (buildCmd "v.mp4" "rtmp://a" "key0") = none ∧
    StreamingService.start_stream wEnvNoLaunch ⟨[], []⟩ 9 "s2" "v.mp4"
      "rtmp://a" "key0" = ⟨false, ⟨[], []⟩, []⟩ :=
  ⟨rfl,
   C6_launch_failure_changes_nothing wEnvNoLaunch ⟨[], []⟩ 9 "s2" "v.mp4"
     "rtmp://a" "key0" rfl⟩

/-- C4: for every session with a running subprocess, stop first requests
graceful termination (`terminate`) and waits up to the 10-second grace
period; if the subprocess has not exited it is force-killed (`kill`); in
both the graceful and the forced path the process handle is deleted from
the process map; and the monitor delivers exactly one terminal
`"stopped"` observer event once the subprocess is observed to have
exited. -/
theorem C4_stop_grace_then_kill_releases_handle (env : StopEnv)
    (st : ServiceState) (now : Nat) (sid : String) (info : StreamInfo)
    (pid : Nat)
    (hA : st.active_streams.lookup sid = some info)
    (hP : st.stream_processes.lookup sid = some pid) :
    (StreamingService.stop_stream env st now sid).ok = true ∧
    (StreamingService.stop_stream env st now sid).acts =
      (if env.waitReturnsWithin pid grace_timeout_seconds then
         [ProcAction.terminate pid]
       else [ProcAction.terminate pid, ProcAction.kill pid]) ∧
    (StreamingService.stop_stream env st now
        sid).state.stream_processes.lookup sid = none ∧
    (∀ exited elapsed fuel k stat,
      (∃ j, j < fuel ∧ exited (k + j) = true) →
      (monitorRun sid exited elapsed fuel k stat).countP
        (fun e => e.status == "stopped") = 1) := by
  rw [stop_stream_with_proc env st now sid info pid hA hP]
  exact ⟨rfl, rfl, lookup_dictDel_self _ _,
    fun exited elapsed fuel k stat hx =>
      monitorRun_terminal_count sid exited elapsed fuel k stat hx⟩

theorem C4_stop_grace_then_kill_releases_handle_witness :
    (StreamingService.stop_stream ⟨fun _ _ => false⟩ wState 20 "s1").acts =
      [ProcAction.terminate 42, ProcAction.kill 42] ∧
    (StreamingService.stop_stream ⟨fun _ _ => false⟩ wState 20
        "s1").state.stream_processes.lookup "s1" = none := by
  have h := C4_stop_grace_then_kill_releases_handle ⟨fun _ _ => false⟩
    wState 20 "s1" wEntry 42 (by decide) (by decide)
  exact ⟨h.2.1, h.2.2.1⟩

/-- C10: a session record is never removed from the in-memory registry —
after a successful stop the entry remains with status `"stopped"` and an
`end_time`; it is still reported by `get_all_stream_status`; a later
start with the same session_id is rejected and changes nothing (a stopped
session_id can never be restarted); and a second stop on the
already-stopped session still returns success. -/
theorem C10_registry_entry_never_removed (senv senv2 : StopEnv)
    (env : Env) (st : ServiceState) (sid : String) (info : StreamInfo)
    (pid : Nat) (now now2 now3 now4 : Nat)
    (video_path stream_url stream_key : String)
    (hA : st.active_streams.lookup sid = some info)
    (hP : st.stream_processes.lookup sid = some pid) :
    (StreamingService.stop_stream senv st now sid).ok = true ∧
    (StreamingService.stop_stream senv st now
        sid).state.active_streams.lookup sid =
      some { info with status := "stopped", end_time := some now } ∧
    (StreamingService.get_all_stream_status
        (StreamingService.stop_stream senv st now sid).state
        now2).lookup sid =
      some (StreamingService.get_stream_status
        (StreamingService.stop_stream senv st now sid).state now2 sid) ∧
    (StreamingService.get_stream_status
        (StreamingService.stop_stream senv st now sid).state now2
        sid).isSome = true ∧
    StreamingService.start_stream env
        (StreamingService.stop_stream senv st now sid).state now3 sid
        video_path stream_url stream_key =
      ⟨false, (StreamingService.stop_stream senv st now sid).state, []⟩ ∧
    (StreamingService.stop_stream senv2
        (StreamingService.stop_stream senv st now sid).state now4
        sid).ok = true := by
  rw [stop_stream_with_proc senv st now sid info pid hA hP]
  have hentry : (setStopped st.active_streams sid now).lookup sid =
      some { info with status := "stopped", end_time := some now } :=
    lookup_setStopped_self st.active_streams sid now info hA
  refine ⟨rfl, hentry, ?_, ?_, ?_, ?_⟩
  · simp only [StreamingService.get_all_stream_status]
    exact lookup_map_keyed _ _ _ (by
      show ((setStopped st.active_streams sid now).lookup sid).isSome = true
      rw [hentry]; rfl)
  · simp only [StreamingService.get_stream_status]
    show ((match (setStopped st.active_streams sid now).lookup sid with
      | none => none
      | some i => some (i, i.end_time.getD now2 - i.start_time)) :
        Option (StreamInfo × Nat)).isSome = true
    rw [hentry]
    rfl
  · exact start_stream_rejects_active env _ now3 sid _ _ _ (by
      show ((setStopped st.active_streams sid now).lookup sid).isSome = true
      rw [hentry]; rfl)
  · rw [stop_stream_without_proc senv2
      ⟨setStopped st.active_streams sid now, dictDel st.stream_processes sid⟩
      now4 sid { info with status := "stopped", end_time := some now }
      hentry (lookup_dictDel_self _ _)]

theorem C10_registry_entry_never_removed_witness :
    (StreamingService.stop_stream ⟨fun _ _ => true⟩ wState 20 "s1").ok =
      true ∧
    (StreamingService.stop_stream ⟨fun _ _ => true⟩ wState 20
        "s1").state.active_streams.lookup "s1" =
      some { wEntry with status := "stopped", end_time := some 20 } ∧
    StreamingService.start_stream wEnv
        (StreamingService.stop_stream ⟨fun _ _ => true⟩ wState 20
          "s1").state 30 "s1" "v.mp4" "rtmp://a" "key0" =
      ⟨false,
       (StreamingService.stop_stream ⟨fun _ _ => true⟩ wState 20
         "s1").state, []⟩ ∧
    (StreamingService.stop_stream ⟨fun _ _ => true⟩
        (StreamingService.stop_stream ⟨fun _ _ => true⟩ wState 20
          "s1").state 40 "s1").ok = true := by
  have h := C10_registry_entry_never_removed ⟨fun _ _ => true⟩
    ⟨fun _ _ => true⟩ wEnv wState "s1" wEntry 42 20 25 30 40 "v.mp4"
    "rtmp://a" "key0" (by decide) (by decide)
  exact ⟨h.1, h.2.1, h.2.2.2.2.1, h.2.2.2.2.2⟩

/-- Formalization of the C3 claim wording: every diagnostic (stderr) line
produced by the subprocess is forwarded to the observer as the message of
some event tagged with the session identifier. -/
def forwardsAllStderrLines (sid : String) (stderrLines : List String)
    (events : List MonEvent) : Prop :=
  ∀ l ∈ stderrLines, ∃ e ∈ events, e.session = sid ∧ e.message = l

/-- C3 counterexample: a subprocess that emits the diagnostic line
"frame=  1 fps=30" and exits at the fourth poll.  The monitor embedding
(taken from `_monitor_stream`, which only ever calls `process.poll()` and
never reads the stderr pipe) emits no event carrying that line, so the
claim that every diagnostic line is forwarded is false. -/
theorem C3_counterexample :
    ¬ forwardsAllStderrLines "s1" ["frame=  1 fps=30"]
      (monitorRun "s1" (fun k => 3 ≤ k) (fun k => 5 * k) 10 0
        "starting") := by
  unfold forwardsAllStderrLines
  decide

/-- C3 amended: after a successful launch, the background monitor does
not read the subprocess's stderr at all; it polls process liveness every
5 seconds and delivers only fixed status events to the observer — an
`"active"` event ("Stream is now active") and a terminal `"stopped"`
event ("Stream process terminated") — each tagged with the session
identifier. -/
theorem C3_monitor_emits_only_status_events (sid : String)
    (exited : Nat → Bool) (elapsed : Nat → Nat) (fuel k : Nat)
    (stat : String) (e : MonEvent)
    (he : e ∈ monitorRun sid exited elapsed fuel k stat) :
    e.session = sid ∧
      ((e.status = "active" ∧ e.message = "Stream is now active") ∨
       (e.status = "stopped" ∧
        e.message = "Stream process terminated")) :=
  monitorRun_events_shape sid exited elapsed fuel k stat e he

theorem C3_monitor_emits_only_status_events_witness :
    (⟨"s1", "stopped", "Stream process terminated"⟩ : MonEvent) ∈
      monitorRun "s1" (fun _ => true) (fun k => 5 * k) 4 0 "starting" ∧
    ("s1" : String) = "s1" := by
  have hm : (⟨"s1", "stopped", "Stream process terminated"⟩ : MonEvent) ∈
      monitorRun "s1" (fun _ => true) (fun k => 5 * k) 4 0 "starting" := by
    decide
  exact ⟨hm, (C3_monitor_emits_only_status_events "s1" (fun _ => true)
    (fun k => 5 * k) 4 0 "starting" _ hm).1⟩

/-- Formalization of the C2 claim wording over the stop flow: stopping
the session issues a transition-to-complete call to the broadcasting
service. -/
def stopIssuesTransitionComplete (r : StopIfaceResult) : Prop :=
  ∃ c ∈ r.ytCalls, isTransitionCompleteCall c = true

/-- C2 counterexample: stopping the active session "s1" (which has a
live subprocess) issues no broadcasting-API call at all — in particular
no transition-to-complete — because neither
`streaming_interface.stop_stream` nor `streaming_service.stop_stream`
ever calls `youtube_service.transition_broadcast`. -/
theorem C2_counterexample :
    ¬ stopIssuesTransitionComplete
      (StreamingInterface.stop_stream ⟨fun _ _ => true⟩ wState 20
        "s1") := by
  unfold stopIssuesTransitionComplete
  decide

/-- C2 amended: stopping a session issues no remote call to the
broadcasting service at all (there is no transition-to-complete call);
the local subprocess is terminated and its handle released purely
locally, so the local stop trivially cannot be blocked by any remote
failure. -/
theorem C2_stop_is_local_only (env : StopEnv) (st : ServiceState)
    (now : Nat) (sid : String) :
    (StreamingInterface.stop_stream env st now sid).ytCalls = [] ∧
    (∀ info pid, st.active_streams.lookup sid = some info →
      st.stream_processes.lookup sid = some pid →
      (StreamingInterface.stop_stream env st now sid).ok = true ∧
      (StreamingInterface.stop_stream env st now
          sid).state.stream_processes.lookup sid = none) := by
  refine ⟨rfl, fun info pid hA hP => ?_⟩
  unfold StreamingInterface.stop_stream
  rw [stop_stream_with_proc env st now sid info pid hA hP]
  exact ⟨rfl, lookup_dictDel_self _ _⟩

theorem C2_stop_is_local_only_witness :
    (StreamingInterface.stop_stream ⟨fun _ _ => true⟩ wState 20
      "s1").ytCalls = [] ∧
    (StreamingInterface.stop_stream ⟨fun _ _ => true⟩ wState 20
      "s1").ok = true := by
  have h := C2_stop_is_local_only ⟨fun _ _ => true⟩ wState 20 "s1"
  exact ⟨h.1, (h.2 wEntry 42 (by decide) (by decide)).1⟩

/-- Formalization of the "input looping" part of the C9 claim wording:
an FFmpeg command makes the source repeat indefinitely only via a loop
flag (`-stream_loop` for demuxer looping or `-loop` for image/gif
looping). -/
def cmdHasInputLooping (cmd : List String) : Prop :=
  "-stream_loop" ∈ cmd ∨ "-loop" ∈ cmd

/-- C9 counterexample: the command constructed for the claim's own
scenario (`clip.mp4` streamed to `rtmp://x` with key `k1`) contains no
loop flag at all, so the source video does not repeat indefinitely and
the "input looping" part of the claim is false. -/
theorem C9_counterexample :
    ¬ cmdHasInputLooping (buildCmd "clip.mp4" "rtmp://x" "k1") := by
  unfold cmdHasInputLooping
  decide

/-- C9 amended: for every successful start, the launched transcoder
command line contains real-time input pacing (`-re`), H.264 video
(`libx264`) with a max bitrate (`-maxrate 3000k`) and buffer size
(`-bufsize 6000k`), a fixed keyframe interval (`-g 60`), AAC audio
(`aac`), FLV-muxed output (`-f flv`), and a destination equal to
`ingest_url ++ "/" ++ ingest_key` — but no input-looping flag, so the
source video does not repeat. -/
theorem C9_command_template (env : Env) (st : ServiceState) (now : Nat)
    (session_id video_path stream_url stream_key : String)
    (vi : VideoInfo) (pid : Nat)
    (hfresh : st.active_streams.lookup session_id = none)
    (hpath : env.pathExists video_path = true)
    (hvi : env.videoInfo video_path = some vi)
    (hpo : env.popen (buildCmd video_path stream_url stream_key) =
      some pid) :
    (StreamingService.start_stream env st now session_id video_path
        stream_url stream_key).ok = true ∧
    (StreamingService.start_stream env st now session_id video_path
        stream_url stream_key).launched =
      [buildCmd video_path stream_url stream_key] ∧
    (buildCmd video_path stream_url stream_key)[1]? = some "-re" ∧
    (buildCmd video_path stream_url stream_key)[5]? = some "libx264" ∧
    (buildCmd video_path stream_url stream_key)[8]? = some "-maxrate" ∧
    (buildCmd video_path stream_url stream_key)[9]? = some "3000k" ∧
    (buildCmd video_path stream_url stream_key)[10]? = some "-bufsize" ∧
    (buildCmd video_path stream_url stream_key)[11]? = some "6000k" ∧
    (buildCmd video_path stream_url stream_key)[14]? = some "-g" ∧
    (buildCmd video_path stream_url stream_key)[15]? = some "60" ∧
    (buildCmd video_path stream_url stream_key)[17]? = some "aac" ∧
    (buildCmd video_path stream_url stream_key)[24]? = some "-f" ∧
    (buildCmd video_path stream_url stream_key)[25]? = some "flv" ∧
    (buildCmd video_path stream_url stream_key).getLast? =
      some (stream_url ++ "/" ++ stream_key) := by
  refine ⟨?_, ?_, rfl, rfl, rfl, rfl, rfl, rfl, rfl, rfl, rfl, rfl, rfl,
    ?_⟩
  · simp [StreamingService.start_stream, hfresh, hpath, hvi, hpo]
  · simp [StreamingService.start_stream, hfresh, hpath, hvi, hpo]
  · simp [buildCmd]

theorem C9_command_template_witness :
    (StreamingService.start_stream wEnv ⟨[], []⟩ 9 "s2" "clip.mp4"
        "rtmp://x" "k1").ok = true ∧
    (StreamingService.start_stream wEnv ⟨[], []⟩ 9 "s2" "clip.mp4"
        "rtmp://x" "k1").launched = [buildCmd "clip.mp4" "rtmp://x" "k1"] ∧
    (buildCmd "clip.mp4" "rtmp://x" "k1").getLast? = some "rtmp://x/k1" := by
  have h := C9_command_template wEnv ⟨[], []⟩ 9 "s2" "clip.mp4" "rtmp://x"
    "k1" wVideoInfo 7 rfl rfl rfl rfl
  refine ⟨h.1, h.2.1, ?_⟩
  have hl := h.2.2.2.2.2.2.2.2.2.2.2.2.2
  simpa using hl

/-- C1 amended: after the transcoding subprocess is started there is no
encoder polling and no auto-transition at all — on every path of the
start flow the remote-call trace contains zero ingest-status queries and
zero transition calls (to live or to anything else); the broadcast is
left in its scheduled state. -/
theorem C1_no_poll_no_transition (yt : YTEnv) (env : Env)
    (svc : ServiceState) (now : Nat) (session_id : String)
    (video_file : Option String) (video_path : String)
    (stream_title stream_description privacy_status category : String)
    (made_for_kids : Bool)
    (tags resolution framerate channel_name : String) :
    (StreamingInterface.start_stream yt env svc now session_id video_file
        video_path stream_title stream_description privacy_status
        category made_for_kids tags resolution framerate
        channel_name).ytCalls.countP isIngestStatusPoll = 0 ∧
    (StreamingInterface.start_stream yt env svc now session_id video_file
        video_path stream_title stream_description privacy_status
        category made_for_kids tags resolution framerate
        channel_name).ytCalls.countP isTransitionCall = 0 := by
  unfold StreamingInterface.start_stream
  repeat' split
  all_goals
    simp [apply_ite IfaceResult.ytCalls,
      apply_ite (List.countP isIngestStatusPoll),
      apply_ite (List.countP isTransitionCall),
      List.countP_cons, isIngestStatusPoll, isTransitionCall]

/-- Remote environment for the concrete successful run used by the
counterexamples: the handshake succeeds and returns ingest coordinates
with a 22-character stream key. -/
def ckYT : YTEnv :=
  ⟨some ⟨"verysecretstreamkey123", "rtmp://x", "ing1"⟩, some "bcast1",
   true⟩

/-- Local environment for the concrete successful run: the video file
exists, ffprobe succeeds, and `Popen` returns pid 77. -/
def ckEnv : Env :=
  ⟨fun _ => true, fun _ => some wVideoInfo, fun _ => some 77⟩

/-- The concrete successful start flow: session "sess1" streaming
`clip.mp4`, full handshake success, subprocess launched. -/
def ckRun : IfaceResult :=
  StreamingInterface.start_stream ckYT ckEnv ⟨[], []⟩ 100 "sess1" none
    "clip.mp4" "My Title" "Desc" "unlisted" "Gaming" false "" "1080p"
    "30fps" "chan"

/-- Formalization of the C1 claim wording over the remote-call trace of
a run in which the subprocess was started and the (hypothetical) encoder
is active: the flow polls the ingest endpoint status at least once and
issues the transition-to-live call exactly once. -/
def c1ClaimHolds (trace : List YTCall) : Prop :=
  0 < trace.countP isIngestStatusPoll ∧
  trace.countP isTransitionLiveCall = 1

/-- C1 counterexample: in the concrete fully successful run (subprocess
started, remote encoder may be as active as it likes), the remote-call
trace contains zero ingest-status polls and zero transition-to-live
calls, so the claimed poll-then-transition protocol does not exist in
the code. -/
theorem C1_counterexample :
    ckRun.ok = true ∧ ¬ c1ClaimHolds ckRun.ytCalls := by
  unfold c1ClaimHolds
  decide

/-- C7: the broadcast handshake performs create-ingest-endpoint
(`create_live_stream`), create-broadcast (`create_live_broadcast`) and
bind (`bind_stream_to_broadcast`) in that strict order, and if the
create-broadcast step fails the flow aborts: the result is a failure,
the remote-call trace is exactly the first two calls (no bind), the
service state is untouched and no transcoder subprocess is ever
launched. -/
theorem C7_handshake_order_and_step2_abort (yt : YTEnv) (env : Env)
    (svc : ServiceState) (now : Nat) (session_id : String)
    (video_file : Option String) (video_path : String)
    (stream_title stream_description privacy_status category : String)
    (made_for_kids : Bool)
    (tags resolution framerate channel_name : String)
    (coords : StreamCoords)
    (hval : ¬ (video_file.isNone = true ∧ video_path = ""))
    (ht : ¬ stream_title = "")
    (hpath : env.pathExists (resolveVideoPath video_file video_path) =
      true)
    (hcls : yt.createLiveStreamResult = some coords) :
    (yt.createLiveBroadcastResult = none →
      (StreamingInterface.start_stream yt env svc now session_id
          video_file video_path stream_title stream_description
          privacy_status category made_for_kids tags resolution framerate
          channel_name).ok = false ∧
      (StreamingInterface.start_stream yt env svc now session_id
          video_file video_path stream_title stream_description
          privacy_status category made_for_kids tags resolution framerate
          channel_name).ytCalls =
        [YTCall.createLiveStream ("Stream Key - " ++ stream_title)
           resolution framerate,
         YTCall.createLiveBroadcast stream_title stream_description
           (scheduledStartString now) privacy_status] ∧
      (StreamingInterface.start_stream yt env svc now session_id
          video_file video_path stream_title stream_description
          privacy_status category made_for_kids tags resolution framerate
          channel_name).svc = svc ∧
      (StreamingInterface.start_stream yt env svc now session_id
          video_file video_path stream_title stream_description
          privacy_status category made_for_kids tags resolution framerate
          channel_name).launched = []) ∧
    (∀ broadcast_id,
      yt.createLiveBroadcastResult = some broadcast_id →
      (StreamingInterface.start_stream yt env svc now session_id
          video_file video_path stream_title stream_description
          privacy_status category made_for_kids tags resolution framerate
          channel_name).ytCalls =
        [YTCall.createLiveStream ("Stream Key - " ++ stream_title)
           resolution framerate,
         YTCall.createLiveBroadcast stream_title stream_description
           (scheduledStartString now) privacy_status,
         YTCall.bindStream broadcast_id coords.stream_id]) := by
  simp only [Option.isNone_iff_eq_none] at hval
  constructor
  · intro hclb
    unfold StreamingInterface.start_stream
    simp [hval, ht, hpath, hcls, hclb]
  · intro broadcast_id hclb
    unfold StreamingInterface.start_stream
    simp [hval, ht, hpath, hcls, hclb,
      apply_ite IfaceResult.ytCalls]

/-- Remote environment in which step 2 (create-broadcast) fails. -/
def ckYTBroadcastFail : YTEnv :=
  ⟨some ⟨"verysecretstreamkey123", "rtmp://x", "ing1"⟩, none, true⟩

theorem C7_handshake_order_and_step2_abort_witness :
    (StreamingInterface.start_stream ckYTBroadcastFail ckEnv ⟨[], []⟩ 100
        "sess2" none "clip.mp4" "My Title" "Desc" "unlisted" "Gaming"
        false "" "1080p" "30fps" "chan").ok = false ∧
    (StreamingInterface.start_stream ckYTBroadcastFail ckEnv ⟨[], []⟩ 100
        "sess2" none "clip.mp4" "My Title" "Desc" "unlisted" "Gaming"
        false "" "1080p" "30fps" "chan").launched = [] ∧
    (StreamingInterface.start_stream ckYTBroadcastFail ckEnv ⟨[], []⟩ 100
        "sess2" none "clip.mp4" "My Title" "Desc" "unlisted" "Gaming"
        false "" "1080p" "30fps" "chan").ytCalls =
      [YTCall.createLiveStream ("Stream Key - " ++ "My Title") "1080p"
         "30fps",
       YTCall.createLiveBroadcast "My Title" "Desc"
         (scheduledStartString 100) "unlisted"] := by
  have h := C7_handshake_order_and_step2_abort ckYTBroadcastFail ckEnv
    ⟨[], []⟩ 100 "sess2" none "clip.mp4" "My Title" "Desc" "unlisted"
    "Gaming" false "" "1080p" "30fps" "chan"
    ⟨"verysecretstreamkey123", "rtmp://x", "ing1"⟩ (by decide)
    (by decide) rfl rfl
  have h1 := h.1 rfl
  exact ⟨h1.1, h1.2.2.2, h1.2.1⟩

/-- Formalization of the C8 claim wording for stored records: any stream
key appearing in a stored session row is only ever a redacted form — a
short prefix plus an ellipsis, like the form the UI displays (at most 13
characters ending in "..."). -/
def isRedactedKeyForm (k : String) : Prop :=
  k.length ≤ 13 ∧ k.takeRight 3 = "..."

/-- Formalization of the C8 claim wording over a start-flow result:
every stored record carries the ingest key only in redacted form. -/
def persistedOnlyRedacted (r : IfaceResult) : Prop :=
  ∀ row ∈ r.saved, ∀ key ∈ row.stream_key.toList, isRedactedKeyForm key

/-- C8 counterexample: in the concrete successful run, the row handed to
`save_streaming_session` carries the full 22-character stream key
unredacted (the `streaming_sessions` table has a plain `stream_key`
column), so the claim that every stored record carries only a redacted
form is false. -/
theorem C8_counterexample :
    ckRun.saved.map SessionRow.stream_key =
      [some "verysecretstreamkey123"] ∧
    ¬ persistedOnlyRedacted ckRun := by
  unfold persistedOnlyRedacted isRedactedKeyForm
  decide

/-- C8 amended: the ingest key is displayed redacted (first 10
characters plus an ellipsis) in the UI, but it is persisted in full:
`save_streaming_session` receives and stores the complete, unredacted
stream key for every session whose handshake succeeds. -/
theorem C8_key_persisted_full_displayed_redacted (yt : YTEnv) (env : Env)
    (svc : ServiceState) (now : Nat) (session_id : String)
    (video_file : Option String) (video_path : String)
    (stream_title stream_description privacy_status category : String)
    (made_for_kids : Bool)
    (tags resolution framerate channel_name : String)
    (coords : StreamCoords) (broadcast_id : String)
    (hval : ¬ (video_file.isNone = true ∧ video_path = ""))
    (ht : ¬ stream_title = "")
    (hpath : env.pathExists (resolveVideoPath video_file video_path) =
      true)
    (hcls : yt.createLiveStreamResult = some coords)
    (hclb : yt.createLiveBroadcastResult = some broadcast_id)
    (hbind : yt.bindResult = true) :
    (StreamingInterface.start_stream yt env svc now session_id video_file
        video_path stream_title stream_description privacy_status
        category made_for_kids tags resolution framerate
        channel_name).saved.map SessionRow.stream_key =
      [some coords.stream_key] ∧
    ((StreamingInterface.start_stream yt env svc now session_id
        video_file video_path stream_title stream_description
        privacy_status category made_for_kids tags resolution framerate
        channel_name).ok = true →
      ("**Stream Key:** " ++ coords.stream_key.take 10 ++ "...") ∈
        (StreamingInterface.start_stream yt env svc now session_id
          video_file video_path stream_title stream_description
          privacy_status category made_for_kids tags resolution framerate
          channel_name).shown) := by
  simp only [Option.isNone_iff_eq_none] at hval
  constructor
  · unfold StreamingInterface.start_stream
    simp [hval, ht, hpath, hcls, hclb, hbind,
      apply_ite IfaceResult.saved]
  · unfold StreamingInterface.start_stream
    simp only [hval, ht, hpath, hcls, hclb, hbind, if_neg, if_pos,
      Bool.not_eq_true]
    simp [hval, ht, hpath]
    split <;> simp

theorem C8_key_persisted_full_displayed_redacted_witness :
    ckRun.saved.map SessionRow.stream_key =
      [some "verysecretstreamkey123"] ∧
    ("**Stream Key:** " ++ "verysecretstreamkey123".take 10 ++ "...") ∈
      ckRun.shown := by
  have h := C8_key_persisted_full_displayed_redacted ckYT ckEnv ⟨[], []⟩
    100 "sess1" none "clip.mp4" "My Title" "Desc" "unlisted" "Gaming"
    false "" "1080p" "30fps" "chan"
    ⟨"verysecretstreamkey123", "rtmp://x", "ing1"⟩ "bcast1" (by decide)
    (by decide) rfl rfl rfl rfl
  exact ⟨h.1, h.2 (by decide)⟩
